import Mathlib

/-!
Verification of `doc/thirdparty/doxygen/dedup_index.py`.

The script reads one XML file, applies a fixed XSLT stylesheet to it, and
overwrites the file in place with the serialized result, printing one
confirmation line on success.  We embed it as a trace-producing function over
an explicit filesystem state.  The XML library (`lxml.etree`) is abstracted by
an `Engine` of partial functions: parsing file contents into a document tree,
compiling a parsed tree into an XSLT transform, applying the transform, and
serializing the result (`str(...)` in Python).  Each completed step of the
script emits an event, so ordering claims are statements about the trace.
-/

/-- Events emitted by the completed steps of the script: a successful
`ET.parse` of a file, a successful `ET.XSLT` compilation, a successful
application of the transform, opening the output file for writing (which
truncates it), the write of the serialized bytes, the close of the file
handle at the end of the `with` block, and a line printed to standard
output. -/
inductive Ev : Type
  | parseFile (path : String)
  | compiledXSLT
  | transformed
  | openWrite (path : String)
  | wroteBytes (path : String) (bytes : String)
  | closedFile (path : String)
  | stdoutLine (line : String)
deriving DecidableEq

/-- Errors the script can fail with: the `IOError` of `ET.parse` on a missing
file, the `XMLSyntaxError` of `ET.parse` on malformed content, the error of
`ET.XSLT` on a tree that is not a valid stylesheet, the error of applying the
transform, the `PermissionError` of `open(..., 'w')`, and the `IndexError` of
`sys.argv[1]` when no argument was given.  All are uncaught in the source, so
each one terminates the process. -/
inductive Err : Type
  | fileNotFound (path : String)
  | xmlParseError (path : String)
  | xsltCompileError
  | transformError
  | writeDenied (path : String)
  | missingArgument
deriving DecidableEq

/-- The filesystem state: an association list from paths to contents (the
most recent binding for a path is its current content), plus the set of paths
that cannot be opened for writing. -/
structure World : Type where
  files : List (String × String)
  readOnly : List String
deriving DecidableEq

/-- Reading a file: `none` when the path does not exist. -/
def readFile (w : World) (p : String) : Option String :=
  w.files.lookup p

/-- Writing a file: the new binding shadows any previous one. -/
def writeFile (w : World) (p : String) (v : String) : World :=
  { w with files := (p, v) :: w.files }

/-- The abstract XML machinery of `lxml.etree`, over opaque types `D` of
parsed document trees, `X` of compiled XSLT transforms and `R` of transform
results.  `parseXML` is the parsing step of `ET.parse` on file contents,
`compileXSLT` is `ET.XSLT`, `applyXSLT` is calling the transform on a
document, and `resultToString` is `str(...)` on the result (the serialization
used by `print`). -/
structure Engine (D X R : Type) : Type where
  parseXML : String → Option D
  compileXSLT : D → Option X
  applyXSLT : X → D → Option R
  resultToString : R → String

deriving instance DecidableEq for Except

/-- The outcome of a run: the trace of completed steps, the final result
(`Except.ok ()` models exiting normally, `Except.error e` an uncaught
exception), and the final filesystem state. -/
structure Outcome : Type where
  trace : List Ev
  result : Except Err Unit
  world : World
deriving DecidableEq

/-- `xsl_transform(inDoc, xslFile, outDoc)`:
`doc = ET.parse(inDoc)`; `xslt = ET.parse(xslFile)`;
`transform = ET.XSLT(xslt)`; `transformed_doc = transform(doc)`;
`with open(outDoc, 'w') as f: print(transformed_doc, file=f)`.
Note that `print` appends a newline to `str(transformed_doc)`. -/
def xsl_transform {D X R : Type} (E : Engine D X R)
    (inDoc xslFile outDoc : String) (w : World) : Outcome :=
  match readFile w inDoc with
  | none => ⟨[], .error (.fileNotFound inDoc), w⟩
  | some sIn =>
    match E.parseXML sIn with
    | none => ⟨[], .error (.xmlParseError inDoc), w⟩
    | some doc =>
      match readFile w xslFile with
      | none => ⟨[.parseFile inDoc], .error (.fileNotFound xslFile), w⟩
      | some sXsl =>
        match E.parseXML sXsl with
        | none => ⟨[.parseFile inDoc], .error (.xmlParseError xslFile), w⟩
        | some xsltTree =>
          match E.compileXSLT xsltTree with
          | none =>
              ⟨[.parseFile inDoc, .parseFile xslFile],
               .error .xsltCompileError, w⟩
          | some transform =>
            match E.applyXSLT transform doc with
            | none =>
                ⟨[.parseFile inDoc, .parseFile xslFile, .compiledXSLT],
                 .error .transformError, w⟩
            | some r =>
              if outDoc ∈ w.readOnly then
                ⟨[.parseFile inDoc, .parseFile xslFile, .compiledXSLT,
                  .transformed],
                 .error (.writeDenied outDoc), w⟩
              else
                ⟨[.parseFile inDoc, .parseFile xslFile, .compiledXSLT,
                  .transformed, .openWrite outDoc,
                  .wroteBytes outDoc (E.resultToString r ++ "\n"),
                  .closedFile outDoc],
                 .ok (),
                 writeFile (writeFile w outDoc "") outDoc
                   (E.resultToString r ++ "\n")⟩

/-- The fixed stylesheet path baked into the script (the `@...@` placeholder
is substituted by CMake's `configure_file`). -/
def stylesheetPath : String :=
  "@PROJECT_DOC_DIR@/thirdparty/doxygen/dedup_index.xsl"

/-- The fixed confirmation line printed on success. -/
def confirmationMessage : String :=
  "Removed duplicated <compound> elements in index.xml"

/-- `doxy_deduplicate_index(filename)`: call `xsl_transform` with `filename`
as both input and output, then print the fixed confirmation line. -/
def doxy_deduplicate_index {D X R : Type} (E : Engine D X R)
    (filename : String) (w : World) : Outcome :=
  match xsl_transform E filename stylesheetPath filename w with
  | ⟨tr, .error e, w1⟩ => ⟨tr, .error e, w1⟩
  | ⟨tr, .ok (), w1⟩ => ⟨tr ++ [.stdoutLine confirmationMessage], .ok (), w1⟩

/-- The module-level call `doxy_deduplicate_index(sys.argv[1])`: `argv` is
the full argument vector including the program name, so `sys.argv[1]` is the
element at index 1 and raises `IndexError` when absent. -/
def script_main {D X R : Type} (E : Engine D X R)
    (argv : List String) (w : World) : Outcome :=
  match argv.get? 1 with
  | none => ⟨[], .error .missingArgument, w⟩
  | some filename => doxy_deduplicate_index E filename w

/-- The process exit status: 0 on a normal return, 1 when an uncaught
exception terminates the interpreter. -/
def exitCode (res : Except Err Unit) : Nat :=
  match res with
  | .ok _ => 0
  | .error _ => 1

/-- A concrete engine used for witnesses and counterexamples: every content
except `"bad"` parses, every tree compiles to a transform, the transform
always succeeds, and every result serializes to `"out"`. -/
def engUnit : Engine Unit Unit Unit where
  parseXML := fun s => if s = "bad" then none else some ()
  compileXSLT := fun _ => some ()
  applyXSLT := fun _ _ => some ()
  resultToString := fun _ => "out"

/-- A world containing a well-formed input file and the stylesheet. -/
def wBoth : World := ⟨[("in.xml", "<idx/>"), (stylesheetPath, "<xsl/>")], []⟩

/-- A world in which the stylesheet file is missing. -/
def wNoXsl : World := ⟨[("in.xml", "<idx/>")], []⟩

/-- A world in which the input file is missing. -/
def wNoInput : World := ⟨[(stylesheetPath, "<xsl/>")], []⟩

/-- A world whose input file is not named `index.xml`. -/
def wOther : World :=
  ⟨[("other.xml", "<idx/>"), (stylesheetPath, "<xsl/>")], []⟩

/-- The complete event trace of a successful run of
`doxy_deduplicate_index` on `fn` whose serialized-plus-newline output is
`bytes`. -/
def fullTrace (fn : String) (bytes : String) : List Ev :=
  [.parseFile fn, .parseFile stylesheetPath, .compiledXSLT, .transformed,
   .openWrite fn, .wroteBytes fn bytes, .closedFile fn,
   .stdoutLine confirmationMessage]

/-- Case analysis on `xsl_transform`: either it fails, leaving the world
untouched and a trace with no write or stdout events, or every stage
succeeded and the outcome is the full write sequence. -/
lemma xsl_transform_cases {D X R : Type} (E : Engine D X R)
    (a x o : String) (w : World) :
    (∃ tr e, xsl_transform E a x o w = ⟨tr, Except.error e, w⟩ ∧
       (∀ p, Ev.openWrite p ∉ tr) ∧ (∀ p b, Ev.wroteBytes p b ∉ tr) ∧
       (∀ l, Ev.stdoutLine l ∉ tr)) ∨
    (∃ sIn d sX xt t r,
       readFile w a = some sIn ∧ E.parseXML sIn = some d ∧
       readFile w x = some sX ∧ E.parseXML sX = some xt ∧
       E.compileXSLT xt = some t ∧ E.applyXSLT t d = some r ∧
       o ∉ w.readOnly ∧
       xsl_transform E a x o w =
         ⟨[.parseFile a, .parseFile x, .compiledXSLT, .transformed,
           .openWrite o, .wroteBytes o (E.resultToString r ++ "\n"),
           .closedFile o],
          Except.ok (),
          writeFile (writeFile w o "") o (E.resultToString r ++ "\n")⟩) := by
  cases h1 : readFile w a with
  | none =>
    exact Or.inl ⟨[], .fileNotFound a, by simp [xsl_transform, h1],
      by simp, by simp, by simp⟩
  | some sIn =>
    cases h2 : E.parseXML sIn with
    | none =>
      exact Or.inl ⟨[], .xmlParseError a, by simp [xsl_transform, h1, h2],
        by simp, by simp, by simp⟩
    | some d =>
      cases h3 : readFile w x with
      | none =>
        exact Or.inl ⟨[.parseFile a], .fileNotFound x,
          by simp [xsl_transform, h1, h2, h3], by simp, by simp, by simp⟩
      | some sX =>
        cases h4 : E.parseXML sX with
        | none =>
          exact Or.inl ⟨[.parseFile a], .xmlParseError x,
            by simp [xsl_transform, h1, h2, h3, h4], by simp, by simp,
            by simp⟩
        | some xt =>
          cases h5 : E.compileXSLT xt with
          | none =>
            exact Or.inl ⟨[.parseFile a, .parseFile x], .xsltCompileError,
              by simp [xsl_transform, h1, h2, h3, h4, h5], by simp, by simp,
              by simp⟩
          | some t =>
            cases h6 : E.applyXSLT t d with
            | none =>
              exact Or.inl ⟨[.parseFile a, .parseFile x, .compiledXSLT],
                .transformError,
                by simp [xsl_transform, h1, h2, h3, h4, h5, h6], by simp,
                by simp, by simp⟩
            | some r =>
              by_cases h7 : o ∈ w.readOnly
              · exact Or.inl ⟨[.parseFile a, .parseFile x, .compiledXSLT,
                  .transformed], .writeDenied o,
                  by simp [xsl_transform, h1, h2, h3, h4, h5, h6, h7],
                  by simp, by simp, by simp⟩
              · exact Or.inr ⟨sIn, d, sX, xt, t, r, rfl, h2, rfl, h4, h5, h6,
                  h7, by simp [xsl_transform, h1, h2, h3, h4, h5, h6, h7]⟩

/-- Case analysis on `doxy_deduplicate_index`: either it fails, leaving the
world untouched and emitting no write or stdout events, or all six stages
succeeded and the outcome is exactly the full trace ending in the
confirmation line, with the file overwritten by the serialized result plus
the newline appended by `print`. -/
lemma run_cases {D X R : Type} (E : Engine D X R) (fn : String) (w : World) :
    (∃ tr e, doxy_deduplicate_index E fn w = ⟨tr, Except.error e, w⟩ ∧
       (∀ p, Ev.openWrite p ∉ tr) ∧ (∀ p b, Ev.wroteBytes p b ∉ tr) ∧
       (∀ l, Ev.stdoutLine l ∉ tr)) ∨
    (∃ sIn d sX xt t r,
       readFile w fn = some sIn ∧ E.parseXML sIn = some d ∧
       readFile w stylesheetPath = some sX ∧ E.parseXML sX = some xt ∧
       E.compileXSLT xt = some t ∧ E.applyXSLT t d = some r ∧
       fn ∉ w.readOnly ∧
       doxy_deduplicate_index E fn w =
         ⟨fullTrace fn (E.resultToString r ++ "\n"),
          Except.ok (),
          writeFile (writeFile w fn "") fn (E.resultToString r ++ "\n")⟩) := by
  rcases xsl_transform_cases E fn stylesheetPath fn w with
    ⟨tr, e, heq, hop, hwr, hsd⟩ | ⟨sIn, d, sX, xt, t, r, h1, h2, h3, h4, h5,
      h6, h7, heq⟩
  · exact Or.inl ⟨tr, e, by simp [doxy_deduplicate_index, heq], hop, hwr,
      hsd⟩
  · refine Or.inr ⟨sIn, d, sX, xt, t, r, h1, h2, h3, h4, h5, h6, h7, ?_⟩
    simp [doxy_deduplicate_index, heq, fullTrace]

/-- Forward computation: when every stage succeeds, the run is exactly the
full write-then-confirm sequence. -/
lemma run_ok_of_stages {D X R : Type} (E : Engine D X R) (fn : String)
    (w : World) {sIn sX : String} {d xt : D} {t : X} {r : R}
    (h1 : readFile w fn = some sIn) (h2 : E.parseXML sIn = some d)
    (h3 : readFile w stylesheetPath = some sX) (h4 : E.parseXML sX = some xt)
    (h5 : E.compileXSLT xt = some t) (h6 : E.applyXSLT t d = some r)
    (h7 : fn ∉ w.readOnly) :
    doxy_deduplicate_index E fn w =
      ⟨fullTrace fn (E.resultToString r ++ "\n"),
       Except.ok (),
       writeFile (writeFile w fn "") fn (E.resultToString r ++ "\n")⟩ := by
  have hx : xsl_transform E fn stylesheetPath fn w =
      ⟨[.parseFile fn, .parseFile stylesheetPath, .compiledXSLT, .transformed,
        .openWrite fn, .wroteBytes fn (E.resultToString r ++ "\n"),
        .closedFile fn],
       Except.ok (),
       writeFile (writeFile w fn "") fn (E.resultToString r ++ "\n")⟩ := by
    simp [xsl_transform, h1, h2, h3, h4, h5, h6, h7]
  simp [doxy_deduplicate_index, hx, fullTrace]

/-- Reading back the path just written yields the written contents. -/
lemma readFile_writeFile_self (w : World) (p v : String) :
    readFile (writeFile w p v) p = some v := by
  simp [readFile, writeFile, List.lookup]

/-- Writing one path leaves every other path's contents unchanged. -/
lemma readFile_writeFile_ne (w : World) (p q v : String) (h : q ≠ p) :
    readFile (writeFile w p v) q = readFile w q := by
  have hb : (q == p) = false := beq_eq_false_iff_ne.mpr h
  simp [readFile, writeFile, List.lookup, hb]

/-- Writing a file does not change which paths are read-only. -/
lemma readOnly_writeFile (w : World) (p v : String) :
    (writeFile w p v).readOnly = w.readOnly := rfl

/-- C1: if the configured stylesheet path is missing or its contents are not
parseable as XSLT, `doxy_deduplicate_index` fails before the input file is
opened for writing, so the filesystem — in particular the input file's
contents — is unchanged on a stylesheet error. -/
theorem stylesheet_error_leaves_input_untouched {D X R : Type}
    (E : Engine D X R) (fn : String) (w : World)
    (hs : readFile w stylesheetPath = none ∨
      ∃ sX, readFile w stylesheetPath = some sX ∧
        (E.parseXML sX = none ∨
         ∃ xt, E.parseXML sX = some xt ∧ E.compileXSLT xt = none)) :
    (∃ e, (doxy_deduplicate_index E fn w).result = Except.error e) ∧
    (doxy_deduplicate_index E fn w).world = w ∧
    (∀ p, Ev.openWrite p ∉ (doxy_deduplicate_index E fn w).trace) ∧
    (∀ p b, Ev.wroteBytes p b ∉ (doxy_deduplicate_index E fn w).trace) := by
  rcases run_cases E fn w with ⟨tr, e, heq, hop, hwr, _⟩ |
    ⟨sIn, d, sX, xt, t, r, h1, h2, h3, h4, h5, h6, h7, heq⟩
  · rw [heq]
    exact ⟨⟨e, rfl⟩, rfl, hop, hwr⟩
  · exfalso
    rcases hs with h | ⟨sX2, hx, h⟩
    · rw [h3] at h
      exact Option.noConfusion h
    · rw [h3] at hx
      obtain rfl := Option.some.inj hx
      rcases h with h | ⟨xt2, hxt, h⟩
      · rw [h4] at h
        exact Option.noConfusion h
      · rw [h4] at hxt
        obtain rfl := Option.some.inj hxt
        rw [h5] at h
        exact Option.noConfusion h

/-- Witness for C1 at a concrete world in which the stylesheet file is
missing. -/
theorem stylesheet_error_leaves_input_untouched_witness :
    (∃ e, (doxy_deduplicate_index engUnit "in.xml" wNoXsl).result =
      Except.error e) ∧
    (doxy_deduplicate_index engUnit "in.xml" wNoXsl).world = wNoXsl ∧
    (∀ p, Ev.openWrite p ∉ (doxy_deduplicate_index engUnit "in.xml"
      wNoXsl).trace) ∧
    (∀ p b, Ev.wroteBytes p b ∉ (doxy_deduplicate_index engUnit "in.xml"
      wNoXsl).trace) :=
  stylesheet_error_leaves_input_untouched engUnit "in.xml" wNoXsl
    (Or.inl (by decide))

/-- C5: if the input file does not exist or is not well-formed XML, the run
fails with the corresponding parse error and the filesystem is completely
unchanged: nothing was created, truncated or modified. -/
theorem input_error_leaves_filesystem_unchanged {D X R : Type}
    (E : Engine D X R) (fn : String) (w : World)
    (hs : readFile w fn = none ∨
      ∃ s, readFile w fn = some s ∧ E.parseXML s = none) :
    ((doxy_deduplicate_index E fn w).result =
        Except.error (Err.fileNotFound fn) ∨
     (doxy_deduplicate_index E fn w).result =
        Except.error (Err.xmlParseError fn)) ∧
    (doxy_deduplicate_index E fn w).world = w ∧
    (∀ p, Ev.openWrite p ∉ (doxy_deduplicate_index E fn w).trace) ∧
    (∀ p b, Ev.wroteBytes p b ∉ (doxy_deduplicate_index E fn w).trace) := by
  rcases hs with h | ⟨s, h, hp⟩
  · have heq : doxy_deduplicate_index E fn w =
        ⟨[], Except.error (Err.fileNotFound fn), w⟩ := by
      simp [doxy_deduplicate_index, xsl_transform, h]
    rw [heq]
    exact ⟨Or.inl rfl, rfl, by simp, by simp⟩
  · have heq : doxy_deduplicate_index E fn w =
        ⟨[], Except.error (Err.xmlParseError fn), w⟩ := by
      simp [doxy_deduplicate_index, xsl_transform, h, hp]
    rw [heq]
    exact ⟨Or.inr rfl, rfl, by simp, by simp⟩

/-- Witness for C5 at a concrete world in which the input file is missing. -/
theorem input_error_leaves_filesystem_unchanged_witness :
    ((doxy_deduplicate_index engUnit "other.xml" wNoInput).result =
        Except.error (Err.fileNotFound "other.xml") ∨
     (doxy_deduplicate_index engUnit "other.xml" wNoInput).result =
        Except.error (Err.xmlParseError "other.xml")) ∧
    (doxy_deduplicate_index engUnit "other.xml" wNoInput).world = wNoInput ∧
    (∀ p, Ev.openWrite p ∉ (doxy_deduplicate_index engUnit "other.xml"
      wNoInput).trace) ∧
    (∀ p b, Ev.wroteBytes p b ∉ (doxy_deduplicate_index engUnit "other.xml"
      wNoInput).trace) :=
  input_error_leaves_filesystem_unchanged engUnit "other.xml" wNoInput
    (Or.inl (by decide))

/-- C2: the write destination is always the path read as input: every open
and every write in the trace targets `fn`, only `fn`'s contents can differ
between the initial and final filesystem, and a successful run both parsed
and opened exactly `fn`. -/
theorem inplace_write_same_path {D X R : Type} (E : Engine D X R)
    (fn : String) (w : World) :
    (∀ p, Ev.openWrite p ∈ (doxy_deduplicate_index E fn w).trace → p = fn) ∧
    (∀ p b, Ev.wroteBytes p b ∈ (doxy_deduplicate_index E fn w).trace →
      p = fn) ∧
    (∀ p, readFile (doxy_deduplicate_index E fn w).world p ≠ readFile w p →
      p = fn) ∧
    ((doxy_deduplicate_index E fn w).result = Except.ok () →
      Ev.parseFile fn ∈ (doxy_deduplicate_index E fn w).trace ∧
      Ev.openWrite fn ∈ (doxy_deduplicate_index E fn w).trace) := by
  rcases run_cases E fn w with ⟨tr, e, heq, hop, hwr, _⟩ |
    ⟨sIn, d, sX, xt, t, r, h1, h2, h3, h4, h5, h6, h7, heq⟩
  · rw [heq]
    exact ⟨fun p hp => absurd hp (hop p),
      fun p b hp => absurd hp (hwr p b),
      fun p hne => absurd rfl hne,
      fun hok => Except.noConfusion hok⟩
  · rw [heq]
    refine ⟨?_, ?_, ?_, fun _ => ⟨by simp [fullTrace], by simp [fullTrace]⟩⟩
    · intro p hp
      simp [fullTrace] at hp
      exact hp
    · intro p b hp
      simp [fullTrace] at hp
      exact hp.1
    · intro p hne
      by_contra hpfn
      exact hne (by
        rw [readFile_writeFile_ne _ _ _ _ hpfn,
          readFile_writeFile_ne _ _ _ _ hpfn])

/-- Witness for C2: the success facts at a concrete run. -/
theorem inplace_write_same_path_witness :
    ("in.xml" = "in.xml") ∧
    (Ev.parseFile "in.xml" ∈
      (doxy_deduplicate_index engUnit "in.xml" wBoth).trace ∧
     Ev.openWrite "in.xml" ∈
      (doxy_deduplicate_index engUnit "in.xml" wBoth).trace) :=
  ⟨(inplace_write_same_path engUnit "in.xml" wBoth).1 "in.xml" (by decide),
   (inplace_write_same_path engUnit "in.xml" wBoth).2.2.2 (by decide)⟩

/-- Counterexample to C3 as stated: at a concrete run whose transform result
serializes to `"out"`, the bytes written (and the resulting file contents)
are `"out\n"` — `print` appended a newline — and not the string form `"out"`
verbatim. -/
theorem written_bytes_not_verbatim :
    engUnit.resultToString () = "out" ∧
    Ev.wroteBytes "in.xml" "out\n" ∈
      (doxy_deduplicate_index engUnit "in.xml" wBoth).trace ∧
    Ev.wroteBytes "in.xml" "out" ∉
      (doxy_deduplicate_index engUnit "in.xml" wBoth).trace ∧
    readFile (doxy_deduplicate_index engUnit "in.xml" wBoth).world "in.xml" =
      some "out\n" ∧
    "out\n" ≠ "out" := by decide

/-- C3 amended: on success, the bytes written to the input file are exactly
the string form of the transform result followed by one newline character
(the newline `print` appends); nothing else is written. -/
theorem written_bytes_are_result_plus_newline {D X R : Type}
    (E : Engine D X R) (fn : String) (w : World) {sIn sX : String}
    {d xt : D} {t : X} {r : R}
    (h1 : readFile w fn = some sIn) (h2 : E.parseXML sIn = some d)
    (h3 : readFile w stylesheetPath = some sX) (h4 : E.parseXML sX = some xt)
    (h5 : E.compileXSLT xt = some t) (h6 : E.applyXSLT t d = some r)
    (h7 : fn ∉ w.readOnly) :
    Ev.wroteBytes fn (E.resultToString r ++ "\n") ∈
      (doxy_deduplicate_index E fn w).trace ∧
    readFile (doxy_deduplicate_index E fn w).world fn =
      some (E.resultToString r ++ "\n") ∧
    (∀ p b, Ev.wroteBytes p b ∈ (doxy_deduplicate_index E fn w).trace →
      p = fn ∧ b = E.resultToString r ++ "\n") := by
  have heq := run_ok_of_stages E fn w h1 h2 h3 h4 h5 h6 h7
  rw [heq]
  refine ⟨by simp [fullTrace], ?_, ?_⟩
  · exact readFile_writeFile_self _ _ _
  · intro p b hp
    simp [fullTrace] at hp
    exact hp

/-- Witness for the amended C3 at a concrete run. -/
theorem written_bytes_are_result_plus_newline_witness :
    Ev.wroteBytes "in.xml" (engUnit.resultToString () ++ "\n") ∈
      (doxy_deduplicate_index engUnit "in.xml" wBoth).trace ∧
    readFile (doxy_deduplicate_index engUnit "in.xml" wBoth).world "in.xml" =
      some (engUnit.resultToString () ++ "\n") ∧
    (∀ p b, Ev.wroteBytes p b ∈
        (doxy_deduplicate_index engUnit "in.xml" wBoth).trace →
      p = "in.xml" ∧ b = engUnit.resultToString () ++ "\n") :=
  @written_bytes_are_result_plus_newline Unit Unit Unit engUnit "in.xml"
    wBoth "<idx/>" "<xsl/>" () () () () (by decide) (by decide) (by decide)
    (by decide) (by decide) (by decide) (by decide)

/-- C4: a successful run performs its steps in exactly the order parse
input, parse stylesheet, compile and apply the transform, open the input
path for writing (truncating), write the serialized result, close, then
print the confirmation; nothing is skipped or reordered. -/
theorem successful_run_step_order {D X R : Type} (E : Engine D X R)
    (fn : String) (w : World) {sIn sX : String} {d xt : D} {t : X} {r : R}
    (h1 : readFile w fn = some sIn) (h2 : E.parseXML sIn = some d)
    (h3 : readFile w stylesheetPath = some sX) (h4 : E.parseXML sX = some xt)
    (h5 : E.compileXSLT xt = some t) (h6 : E.applyXSLT t d = some r)
    (h7 : fn ∉ w.readOnly) :
    doxy_deduplicate_index E fn w =
      ⟨[Ev.parseFile fn, Ev.parseFile stylesheetPath, Ev.compiledXSLT,
        Ev.transformed, Ev.openWrite fn,
        Ev.wroteBytes fn (E.resultToString r ++ "\n"), Ev.closedFile fn,
        Ev.stdoutLine confirmationMessage],
       Except.ok (),
       writeFile (writeFile w fn "") fn (E.resultToString r ++ "\n")⟩ :=
  run_ok_of_stages E fn w h1 h2 h3 h4 h5 h6 h7

/-- Witness for C4 at a concrete run. -/
theorem successful_run_step_order_witness :
    doxy_deduplicate_index engUnit "in.xml" wBoth =
      ⟨[Ev.parseFile "in.xml", Ev.parseFile stylesheetPath, Ev.compiledXSLT,
        Ev.transformed, Ev.openWrite "in.xml",
        Ev.wroteBytes "in.xml" (engUnit.resultToString () ++ "\n"),
        Ev.closedFile "in.xml", Ev.stdoutLine confirmationMessage],
       Except.ok (),
       writeFile (writeFile wBoth "in.xml" "") "in.xml"
         (engUnit.resultToString () ++ "\n")⟩ :=
  @successful_run_step_order Unit Unit Unit engUnit "in.xml" wBoth "<idx/>"
    "<xsl/>" () () () () (by decide) (by decide) (by decide) (by decide)
    (by decide) (by decide) (by decide)

/-- C6: every error propagates uncaught — a failing run exits with status 1
and never reaches the confirmation print — and exit status 0 occurs only
when the full transform-and-overwrite sequence completed: the file was
opened, written, closed, and the confirmation line was printed. -/
theorem errors_propagate_exit_status {D X R : Type} (E : Engine D X R)
    (fn : String) (w : World) :
    (∀ e, (doxy_deduplicate_index E fn w).result = Except.error e →
      exitCode (doxy_deduplicate_index E fn w).result = 1 ∧
      (∀ l, Ev.stdoutLine l ∉ (doxy_deduplicate_index E fn w).trace)) ∧
    (exitCode (doxy_deduplicate_index E fn w).result = 0 →
      ∃ b, Ev.openWrite fn ∈ (doxy_deduplicate_index E fn w).trace ∧
        Ev.wroteBytes fn b ∈ (doxy_deduplicate_index E fn w).trace ∧
        Ev.closedFile fn ∈ (doxy_deduplicate_index E fn w).trace ∧
        Ev.stdoutLine confirmationMessage ∈
          (doxy_deduplicate_index E fn w).trace ∧
        readFile (doxy_deduplicate_index E fn w).world fn = some b) := by
  rcases run_cases E fn w with ⟨tr, e, heq, _, _, hsd⟩ |
    ⟨sIn, d, sX, xt, t, r, h1, h2, h3, h4, h5, h6, h7, heq⟩
  · rw [heq]
    refine ⟨fun e2 _ => ⟨rfl, hsd⟩, fun h0 => ?_⟩
    simp [exitCode] at h0
  · rw [heq]
    refine ⟨fun e2 he2 => Except.noConfusion he2, fun _ => ?_⟩
    exact ⟨E.resultToString r ++ "\n", by simp [fullTrace],
      by simp [fullTrace], by simp [fullTrace], by simp [fullTrace],
      readFile_writeFile_self _ _ _⟩

/-- Witness for C6: a failing run exits 1 without printing, and a
successful run completed the whole sequence. -/
theorem errors_propagate_exit_status_witness :
    (exitCode (doxy_deduplicate_index engUnit "in.xml" wNoXsl).result = 1 ∧
     (∀ l, Ev.stdoutLine l ∉
       (doxy_deduplicate_index engUnit "in.xml" wNoXsl).trace)) ∧
    (∃ b, Ev.openWrite "in.xml" ∈
        (doxy_deduplicate_index engUnit "in.xml" wBoth).trace ∧
      Ev.wroteBytes "in.xml" b ∈
        (doxy_deduplicate_index engUnit "in.xml" wBoth).trace ∧
      Ev.closedFile "in.xml" ∈
        (doxy_deduplicate_index engUnit "in.xml" wBoth).trace ∧
      Ev.stdoutLine confirmationMessage ∈
        (doxy_deduplicate_index engUnit "in.xml" wBoth).trace ∧
      readFile (doxy_deduplicate_index engUnit "in.xml" wBoth).world
        "in.xml" = some b) :=
  ⟨(errors_propagate_exit_status engUnit "in.xml" wNoXsl).1
      (Err.fileNotFound stylesheetPath) (by decide),
   (errors_propagate_exit_status engUnit "in.xml" wBoth).2 (by decide)⟩

/-- C7: assuming the transform is idempotent on the already-deduplicated
output (and serialization is a function, hence deterministic), running
`doxy_deduplicate_index` twice produces byte-identical file contents to
running it once.  `fn ≠ stylesheetPath` rules out the degenerate run that
overwrites the stylesheet itself. -/
theorem deduplication_idempotent {D X R : Type} (E : Engine D X R)
    (fn : String) (w : World) {sIn sX : String} {d xt d2 : D} {t : X}
    {r r2 : R}
    (h1 : readFile w fn = some sIn) (h2 : E.parseXML sIn = some d)
    (h3 : readFile w stylesheetPath = some sX) (h4 : E.parseXML sX = some xt)
    (h5 : E.compileXSLT xt = some t) (h6 : E.applyXSLT t d = some r)
    (h7 : fn ∉ w.readOnly) (hne : fn ≠ stylesheetPath)
    (hp2 : E.parseXML (E.resultToString r ++ "\n") = some d2)
    (ha2 : E.applyXSLT t d2 = some r2)
    (hidem : E.resultToString r2 = E.resultToString r) :
    (doxy_deduplicate_index E fn
        (doxy_deduplicate_index E fn w).world).result = Except.ok () ∧
    readFile (doxy_deduplicate_index E fn
        (doxy_deduplicate_index E fn w).world).world fn =
      readFile (doxy_deduplicate_index E fn w).world fn := by
  have heq1 := run_ok_of_stages E fn w h1 h2 h3 h4 h5 h6 h7
  have g1 : readFile (writeFile (writeFile w fn "") fn
      (E.resultToString r ++ "\n")) fn = some (E.resultToString r ++ "\n") :=
    readFile_writeFile_self _ _ _
  have g3 : readFile (writeFile (writeFile w fn "") fn
      (E.resultToString r ++ "\n")) stylesheetPath = some sX := by
    rw [readFile_writeFile_ne _ _ _ _ (Ne.symm hne),
      readFile_writeFile_ne _ _ _ _ (Ne.symm hne)]
    exact h3
  have heq2 := run_ok_of_stages E fn
    (writeFile (writeFile w fn "") fn (E.resultToString r ++ "\n"))
    g1 hp2 g3 h4 h5 ha2 h7
  rw [heq1]
  show (doxy_deduplicate_index E fn (writeFile (writeFile w fn "") fn
      (E.resultToString r ++ "\n"))).result = Except.ok () ∧
    readFile (doxy_deduplicate_index E fn (writeFile (writeFile w fn "") fn
      (E.resultToString r ++ "\n"))).world fn =
    readFile (writeFile (writeFile w fn "") fn
      (E.resultToString r ++ "\n")) fn
  rw [heq2]
  refine ⟨rfl, ?_⟩
  show readFile (writeFile (writeFile (writeFile (writeFile w fn "") fn
      (E.resultToString r ++ "\n")) fn "") fn
      (E.resultToString r2 ++ "\n")) fn =
    readFile (writeFile (writeFile w fn "") fn
      (E.resultToString r ++ "\n")) fn
  rw [readFile_writeFile_self, readFile_writeFile_self, hidem]

/-- Witness for C7 at a concrete engine whose transform is idempotent. -/
theorem deduplication_idempotent_witness :
    (doxy_deduplicate_index engUnit "in.xml"
        (doxy_deduplicate_index engUnit "in.xml" wBoth).world).result =
      Except.ok () ∧
    readFile (doxy_deduplicate_index engUnit "in.xml"
        (doxy_deduplicate_index engUnit "in.xml" wBoth).world).world
        "in.xml" =
      readFile (doxy_deduplicate_index engUnit "in.xml" wBoth).world
        "in.xml" :=
  @deduplication_idempotent Unit Unit Unit engUnit "in.xml" wBoth "<idx/>"
    "<xsl/>" () () () () () () (by decide) (by decide) (by decide)
    (by decide) (by decide) (by decide) (by decide) (by decide) (by decide)
    (by decide) (by decide)

/-- C8: on a successful run exactly one line goes to standard output, and it
comes after the write and the close of the file handle (it is the final
event, preceded by `closedFile`); on a failed run no line is printed. -/
theorem confirmation_after_close_once {D X R : Type} (E : Engine D X R)
    (fn : String) (w : World) :
    ((doxy_deduplicate_index E fn w).result = Except.ok () →
      ∃ pre, (doxy_deduplicate_index E fn w).trace =
          pre ++ [Ev.stdoutLine confirmationMessage] ∧
        (∀ l, Ev.stdoutLine l ∉ pre) ∧
        Ev.closedFile fn ∈ pre ∧ (∃ b, Ev.wroteBytes fn b ∈ pre)) ∧
    (∀ e, (doxy_deduplicate_index E fn w).result = Except.error e →
      ∀ l, Ev.stdoutLine l ∉ (doxy_deduplicate_index E fn w).trace) := by
  rcases run_cases E fn w with ⟨tr, e, heq, _, _, hsd⟩ |
    ⟨sIn, d, sX, xt, t, r, h1, h2, h3, h4, h5, h6, h7, heq⟩
  · rw [heq]
    exact ⟨fun h => Except.noConfusion h, fun e2 he2 => hsd⟩
  · rw [heq]
    refine ⟨fun _ => ⟨[Ev.parseFile fn, Ev.parseFile stylesheetPath,
      Ev.compiledXSLT, Ev.transformed, Ev.openWrite fn,
      Ev.wroteBytes fn (E.resultToString r ++ "\n"), Ev.closedFile fn],
      by simp [fullTrace], by simp, by simp,
      ⟨E.resultToString r ++ "\n", by simp⟩⟩,
      fun e2 he2 => Except.noConfusion he2⟩

/-- Witness for C8: a successful and a failing concrete run. -/
theorem confirmation_after_close_once_witness :
    (∃ pre, (doxy_deduplicate_index engUnit "in.xml" wBoth).trace =
        pre ++ [Ev.stdoutLine confirmationMessage] ∧
      (∀ l, Ev.stdoutLine l ∉ pre) ∧
      Ev.closedFile "in.xml" ∈ pre ∧
      (∃ b, Ev.wroteBytes "in.xml" b ∈ pre)) ∧
    (∀ l, Ev.stdoutLine l ∉
      (doxy_deduplicate_index engUnit "in.xml" wNoXsl).trace) :=
  ⟨(confirmation_after_close_once engUnit "in.xml" wBoth).1 (by decide),
   (confirmation_after_close_once engUnit "in.xml" wNoXsl).2
     (Err.fileNotFound stylesheetPath) (by decide)⟩

/-- C9: any line the program prints to standard output is the fixed string
naming `index.xml`, independent of the filename argument, the document
contents, the engine, and the transform result. -/
theorem confirmation_message_fixed {D X R : Type} (E : Engine D X R)
    (fn : String) (w : World) (l : String)
    (hl : Ev.stdoutLine l ∈ (doxy_deduplicate_index E fn w).trace) :
    l = "Removed duplicated <compound> elements in index.xml" := by
  rcases run_cases E fn w with ⟨tr, e, heq, _, _, hsd⟩ |
    ⟨sIn, d, sX, xt, t, r, h1, h2, h3, h4, h5, h6, h7, heq⟩
  · rw [heq] at hl
    exact absurd hl (hsd l)
  · rw [heq] at hl
    simp [fullTrace, confirmationMessage] at hl
    exact hl

/-- Witness for C9: the run on `other.xml` still prints the line naming
`index.xml`. -/
theorem confirmation_message_fixed_witness :
    "Removed duplicated <compound> elements in index.xml" =
      "Removed duplicated <compound> elements in index.xml" :=
  confirmation_message_fixed engUnit "other.xml" wOther
    "Removed duplicated <compound> elements in index.xml" (by decide)

/-- C10: invoked with no positional argument, the script fails on the
access to `sys.argv[1]` before any file is read or written: the trace is
empty and the filesystem is unchanged. -/
theorem missing_argument_fails_early {D X R : Type} (E : Engine D X R)
    (argv : List String) (w : World) (h : argv.length ≤ 1) :
    script_main E argv w = ⟨[], Except.error Err.missingArgument, w⟩ := by
  cases argv with
  | nil => rfl
  | cons a as =>
    cases as with
    | nil => rfl
    | cons b bs =>
      simp only [List.length_cons] at h
      omega

/-- Witness for C10: the argument vector holding only the program name. -/
theorem missing_argument_fails_early_witness :
    script_main engUnit ["dedup_index.py"] wBoth =
      ⟨[], Except.error Err.missingArgument, wBoth⟩ :=
  missing_argument_fails_early engUnit ["dedup_index.py"] wBoth (by decide)
